import Mathlib

/-!
Verification of the cluster-api-provider-nested virtualcluster core:
shallow embeddings of the tenant provisioner (provisioner_native.go),
the secret adapters (secret.go), the namespace patroller and its
garbage-collection check, and the namespace scheduler reconcile loop
(experiment scheduler namespace controller.go), together with theorems
settling the specification claims about them.
-/

namespace VCNested

/-! ## etcd initial-cluster argument (provisioner_native.go) -/

/-- `DefaultETCDPeerPort` constant from provisioner_native.go. -/
def DefaultETCDPeerPort : Nat := 2380

/-- The peer address built by the `fmt.Sprintf` inside `genInitialClusterArgs`:
`<sts>-<i>=https://<sts>-<i>.<svc>:<port>` with the default etcd peer port. -/
def etcdPeerAddr (stsName svcName : String) (i : Nat) : String :=
  stsName ++ "-" ++ toString i ++ "=https://" ++ stsName ++ "-" ++ toString i ++ "." ++
    svcName ++ ":" ++ toString DefaultETCDPeerPort

/-- `genInitialClusterArgs` from provisioner_native.go: iterates `i` from 0 to
`replicas - 1`, appending each peer address followed by a comma, except for the
final iteration (`i == replicas-1`) which appends the peer address alone. -/
def genInitialClusterArgs (replicas : Nat) (stsName svcName : String) : String :=
  (List.range replicas).foldl
    (fun argsVal i =>
      if i = replicas - 1 then argsVal ++ etcdPeerAddr stsName svcName i
      else argsVal ++ etcdPeerAddr stsName svcName i ++ ",")
    ""

/-- Comma-separated join with no trailing comma, read off the claim's words
("comma-separated with no trailing comma", empty for the empty list). -/
def commaJoin : List String → String
  | [] => ""
  | [x] => x
  | x :: y :: xs => x ++ "," ++ commaJoin (y :: xs)

theorem commaJoin_nil : commaJoin [] = "" := rfl

theorem commaJoin_singleton (x : String) : commaJoin [x] = x := rfl

theorem commaJoin_cons_cons (x y : String) (xs : List String) :
    commaJoin (x :: y :: xs) = x ++ "," ++ commaJoin (y :: xs) := rfl

theorem string_append_empty_left (s : String) : "" ++ s = s := by
  apply String.ext
  simp [String.data_append]

theorem string_append_empty_right (s : String) : s ++ "" = s := by
  apply String.ext
  simp [String.data_append]

theorem string_append_assoc (a b c : String) : a ++ b ++ c = a ++ (b ++ c) := by
  apply String.ext
  simp [String.data_append]

/-- Pulling the initial accumulator out of a string-append left fold. -/
theorem foldl_strings_init (w : List String) (a : String) :
    w.foldl (· ++ ·) a = a ++ w.foldl (· ++ ·) "" := by
  induction w generalizing a with
  | nil => exact (string_append_empty_right a).symm
  | cons u w ihw =>
    rw [List.foldl_cons, List.foldl_cons, ihw, ihw ("" ++ u),
      string_append_empty_left, string_append_assoc]

/-- `commaJoin` of a list extended on the right: the new last element is
preceded by all earlier elements, each carrying its own trailing comma. -/
theorem commaJoin_append_singleton (l : List String) (x : String) :
    commaJoin (l ++ [x]) = (l.map (· ++ ",")).foldl (· ++ ·) "" ++ x := by
  induction l with
  | nil => simp [commaJoin, string_append_empty_left]
  | cons y l ih =>
    cases l with
    | nil =>
      show commaJoin [y, x] = ([y].map (· ++ ",")).foldl (· ++ ·) "" ++ x
      rw [commaJoin_cons_cons, commaJoin_singleton, List.map_cons, List.map_nil,
        List.foldl_cons, List.foldl_nil, string_append_empty_left]
    | cons z l' =>
      rw [List.cons_append, List.cons_append, commaJoin_cons_cons, ← List.cons_append, ih]
      conv_rhs => rw [List.map_cons, List.foldl_cons, string_append_empty_left, foldl_strings_init]
      simp only [string_append_assoc]

/-- The Go loop body with the trailing comma on every iteration, as a fold. -/
theorem foldl_comma_eq (f : Nat → String) (l : List Nat) (acc : String) :
    l.foldl (fun a i => a ++ f i ++ ",") acc =
      acc ++ (l.map (fun i => f i ++ ",")).foldl (· ++ ·) "" := by
  induction l generalizing acc with
  | nil => exact (string_append_empty_right acc).symm
  | cons x l ih =>
    rw [List.foldl_cons, ih]
    conv_rhs => rw [List.map_cons, List.foldl_cons, string_append_empty_left, foldl_strings_init]
    simp only [string_append_assoc]

/-- One unfolding of `genInitialClusterArgs` at a positive replica count: the
final peer is appended without a comma after all earlier comma-terminated peers. -/
theorem genInitialClusterArgs_succ (n : Nat) (stsName svcName : String) :
    genInitialClusterArgs (n + 1) stsName svcName =
      ((List.range n).map (fun i => etcdPeerAddr stsName svcName i ++ ",")).foldl (· ++ ·) ""
        ++ etcdPeerAddr stsName svcName n := by
  unfold genInitialClusterArgs
  rw [List.range_succ, List.foldl_append, List.foldl_cons, List.foldl_nil]
  have hcond : ∀ i, i ∈ List.range n →
      ∀ a : String, (if i = (n + 1) - 1 then a ++ etcdPeerAddr stsName svcName i
        else a ++ etcdPeerAddr stsName svcName i ++ ",") =
        a ++ etcdPeerAddr stsName svcName i ++ "," := by
    intro i hi a
    have : i ≠ n := Nat.ne_of_lt (List.mem_range.mp hi)
    simp [this]
  have hbody : (List.range n).foldl
      (fun argsVal i => if i = (n + 1) - 1 then argsVal ++ etcdPeerAddr stsName svcName i
        else argsVal ++ etcdPeerAddr stsName svcName i ++ ",") "" =
      (List.range n).foldl (fun argsVal i => argsVal ++ etcdPeerAddr stsName svcName i ++ ",") "" := by
    apply List.foldl_ext
    intro a i hi
    exact hcond i hi a
  rw [hbody, foldl_comma_eq, string_append_empty_left]
  simp

theorem toString_defaultETCDPeerPort : toString DefaultETCDPeerPort = "2380" := by decide

/-- The peer address written out literally, as in the claim. -/
theorem etcdPeerAddr_literal (stsName svcName : String) (i : Nat) :
    etcdPeerAddr stsName svcName i =
      stsName ++ "-" ++ toString i ++ "=https://" ++ stsName ++ "-" ++ toString i ++ "." ++
        svcName ++ ":2380" := by
  rw [etcdPeerAddr, toString_defaultETCDPeerPort, string_append_assoc,
    show (":" : String) ++ "2380" = ":2380" by decide]

/-- C7: for every replica count n and names sts, svc, `genInitialClusterArgs`
returns the comma-separated, no-trailing-comma concatenation in index order of
the peers `<sts>-<i>=https://<sts>-<i>.<svc>:2380` for i = 0, …, n−1 (empty
when n = 0). -/
theorem C7_genInitialClusterArgs (n : Nat) (stsName svcName : String) :
    genInitialClusterArgs n stsName svcName =
      commaJoin ((List.range n).map (fun i =>
        stsName ++ "-" ++ toString i ++ "=https://" ++ stsName ++ "-" ++ toString i ++ "." ++
          svcName ++ ":2380")) := by
  have hmap : (List.range n).map (fun i =>
      stsName ++ "-" ++ toString i ++ "=https://" ++ stsName ++ "-" ++ toString i ++ "." ++
        svcName ++ ":2380") = (List.range n).map (etcdPeerAddr stsName svcName) := by
    apply List.map_congr_left
    intro i _
    exact (etcdPeerAddr_literal stsName svcName i).symm
  rw [hmap]
  cases n with
  | zero => rfl
  | succ m =>
    rw [genInitialClusterArgs_succ, List.range_succ, List.map_append, List.map_singleton,
      commaJoin_append_singleton, List.map_map]
    rfl

/-! ## Secret adapters (secret.go) -/

/-- `RootCASecretName` from secret.go. -/
def RootCASecretName : String := "root-ca"

/-- `APIServerCASecretName` from secret.go. -/
def APIServerCASecretName : String := "apiserver-ca"

/-- `ETCDCASecretName` from secret.go. -/
def ETCDCASecretName : String := "etcd-ca"

/-- `FrontProxyCASecretName` from secret.go. -/
def FrontProxyCASecretName : String := "front-proxy-ca"

/-- `ControllerManagerSecretName` from secret.go. -/
def ControllerManagerSecretName : String := "controller-manager-kubeconfig"

/-- `AdminSecretName` from secret.go. -/
def AdminSecretName : String := "admin-kubeconfig"

/-- `ServiceAccountSecretName` from secret.go. -/
def ServiceAccountSecretName : String := "serviceaccount-rsa"

/-- `corev1.SecretTypeTLS`, the Kubernetes TLS secret type string. -/
def SecretTypeTLS : String := "kubernetes.io/tls"

/-- `corev1.SecretTypeOpaque`, the Kubernetes Opaque secret type string. -/
def SecretTypeOpaque : String := "Opaque"

/-- `corev1.TLSCertKey`, the certificate field name of a TLS secret. -/
def TLSCertKey : String := "tls.crt"

/-- `corev1.TLSPrivateKeyKey`, the private-key field name of a TLS secret. -/
def TLSPrivateKeyKey : String := "tls.key"

/-- A Kubernetes Secret object as built by secret.go: name, namespace,
secret type string, and the data map as an association list. -/
structure Secret where
  name : String
  namespaceName : String
  secretType : String
  data : List (String × String)
deriving DecidableEq, Repr

/-- An RSA private key as consumed by `RsaKeyToSecret`, represented by the
results of the two PEM encoders applied to it: `pubPEM` is the result of
`pkiutil.EncodePublicKeyPEM` on the public half (`none` when encoding fails),
`privPEM` the result of the infallible `vcpki.EncodePrivateKeyPEM`. -/
structure RsaPrivateKey where
  pubPEM : Option String
  privPEM : String
deriving DecidableEq, Repr

/-- `RsaKeyToSecret` from secret.go: encodes the public key (propagating the
encoder's error), then wraps both PEM blobs in a secret of type
`corev1.SecretTypeTLS` under the `tls.crt` / `tls.key` data keys. -/
def RsaKeyToSecret (name namespaceName : String) (rsaKey : RsaPrivateKey) : Option Secret :=
  match rsaKey.pubPEM with
  | none => none
  | some encodedPubKey =>
    some { name := name, namespaceName := namespaceName, secretType := SecretTypeTLS,
           data := [(TLSCertKey, encodedPubKey), (TLSPrivateKeyKey, rsaKey.privPEM)] }

/-- A crt/key pair as consumed by `CrtKeyPairToSecret`, represented by the PEM
encodings of its certificate and private key. -/
structure CrtKeyPair where
  crtPEM : String
  keyPEM : String
deriving DecidableEq, Repr

/-- `CrtKeyPairToSecret` from secret.go: a TLS-typed secret holding the
PEM-encoded certificate and private key. -/
def CrtKeyPairToSecret (name namespaceName : String) (ckp : CrtKeyPair) : Secret :=
  { name := name, namespaceName := namespaceName, secretType := SecretTypeTLS,
    data := [(TLSCertKey, ckp.crtPEM), (TLSPrivateKeyKey, ckp.keyPEM)] }

/-- `KubeconfigToSecret` from secret.go: an Opaque-typed secret with a single
field keyed by the secret's own name. -/
def KubeconfigToSecret (name namespaceName cfgContent : String) : Secret :=
  { name := name, namespaceName := namespaceName, secretType := SecretTypeOpaque,
    data := [(name, cfgContent)] }

/-- C4 counterexample: on a concrete RSA key, the service-account secret built
by `RsaKeyToSecret` is TLS-typed with `tls.crt` / `tls.key` fields — it is not
the Opaque shape with `cert` / `key` fields that the claim states. -/
theorem C4_counterexample :
    RsaKeyToSecret ServiceAccountSecretName "ns-a" ⟨some "PUBPEM", "PRIVPEM"⟩ =
      some ⟨ServiceAccountSecretName, "ns-a", SecretTypeTLS,
        [(TLSCertKey, "PUBPEM"), (TLSPrivateKeyKey, "PRIVPEM")]⟩ ∧
    SecretTypeTLS ≠ SecretTypeOpaque ∧
    ([(TLSCertKey, "PUBPEM"), (TLSPrivateKeyKey, "PRIVPEM")].lookup "cert" = none) := by
  exact ⟨rfl, by decide, by decide⟩

/-- C4 (amended): for every RSA private key whose public half encodes
successfully, `RsaKeyToSecret` produces a secret of the TLS shape: type
`kubernetes.io/tls`, `tls.crt` holding the PEM-encoded public key and
`tls.key` holding the PEM-encoded private key. -/
theorem C4_rsaKeyToSecret_tls_shape (name namespaceName : String) (k : RsaPrivateKey)
    (pub : String) (h : k.pubPEM = some pub) :
    RsaKeyToSecret name namespaceName k =
      some { name := name, namespaceName := namespaceName, secretType := SecretTypeTLS,
             data := [(TLSCertKey, pub), (TLSPrivateKeyKey, k.privPEM)] } := by
  unfold RsaKeyToSecret
  rw [h]

/-- C4 witness: the amended theorem evaluated on a concrete key. -/
theorem C4_rsaKeyToSecret_tls_shape_witness :
    RsaKeyToSecret ServiceAccountSecretName "ns-a" ⟨some "PUB", "PRIV"⟩ =
      some ⟨ServiceAccountSecretName, "ns-a", SecretTypeTLS,
        [(TLSCertKey, "PUB"), (TLSPrivateKeyKey, "PRIV")]⟩ :=
  C4_rsaKeyToSecret_tls_shape ServiceAccountSecretName "ns-a" ⟨some "PUB", "PRIV"⟩ "PUB" rfl

/-! ## Namespace patroller garbage collection (secret.go, package namespace) -/

/-- The outcome of looking up a VirtualCluster by (namespace, name), either in
the informer cache (`vcLister`) or freshly at the apiserver (`vcClient`):
found with a UID, a NotFound error, or any other error. -/
inductive VCLookup where
  | found (uid : String)
  | notFound
  | otherError
deriving DecidableEq, Repr

/-- The tenant-ownership back-reference annotations carried by a super-cluster
namespace: `constants.LabelVCName`, `constants.LabelVCNamespace`,
`constants.LabelVCUID`. -/
structure NamespaceAnn where
  vcName : String
  vcNamespace : String
  vcUID : String
deriving DecidableEq, Repr

/-- `shouldBeGarbageCollected` from the namespace patroller: empty name or
namespace annotation means false; a cached NotFound is double checked against
the apiserver and is an orphan only when the apiserver also answers NotFound;
a cached UID mismatch is double checked and is an orphan only when the
apiserver returns a VirtualCluster whose UID also differs from the annotation;
every other case (including any lookup error) is false. `cached` is the
`vcLister` result, `fresh` the `vcClient` result for the same key. -/
def shouldBeGarbageCollected (ann : NamespaceAnn) (cached fresh : VCLookup) : Bool :=
  if ann.vcName = "" || ann.vcNamespace = "" then false
  else
    match cached with
    | .notFound =>
      match fresh with
      | .notFound => true
      | _ => false
    | .otherError => false
    | .found cachedUID =>
      if ann.vcUID ≠ cachedUID then
        match fresh with
        | .found freshUID => ann.vcUID ≠ freshUID
        | _ => false
      else false

/-- The claim's reading of the GC check: the fresh (apiserver) lookup alone
decides — NotFound, or a VirtualCluster under a different UID. -/
def freshSaysOrphan (ann : NamespaceAnn) (fresh : VCLookup) : Prop :=
  fresh = .notFound ∨ ∃ u, fresh = .found u ∧ ann.vcUID ≠ u

/-- C1 counterexample: with non-empty annotations, a cached VirtualCluster whose
UID matches the annotation, and a fresh store where the VirtualCluster is gone,
`shouldBeGarbageCollected` returns false although the claimed fresh-lookup
condition (NotFound) holds — the function never consults the fresh store when
the cache looks healthy, so the claimed "iff" fails. -/
theorem C1_counterexample :
    ¬ ((shouldBeGarbageCollected ⟨"vc-a", "default", "u1"⟩ (VCLookup.found "u1")
          VCLookup.notFound = true) ↔
        freshSaysOrphan ⟨"vc-a", "default", "u1"⟩ VCLookup.notFound) := by
  intro h
  have hfalse : shouldBeGarbageCollected ⟨"vc-a", "default", "u1"⟩ (VCLookup.found "u1")
      VCLookup.notFound = true := h.mpr (Or.inl rfl)
  exact absurd hfalse (by decide)

/-- C1 (amended): with non-empty `vc.name` / `vc.namespace` annotations,
`shouldBeGarbageCollected` returns true iff the cached and the fresh lookups
agree that the owner is gone: both answer NotFound, or both return a
VirtualCluster whose UID differs from the `vc.uid` annotation. In particular a
cached NotFound or cached UID mismatch alone never yields true without the
fresh (apiserver) lookup confirming it. -/
theorem C1_shouldBeGarbageCollected_iff (ann : NamespaceAnn) (cached fresh : VCLookup)
    (h1 : ann.vcName ≠ "") (h2 : ann.vcNamespace ≠ "") :
    (shouldBeGarbageCollected ann cached fresh = true ↔
      (cached = .notFound ∧ fresh = .notFound) ∨
      (∃ cu fu, cached = .found cu ∧ fresh = .found fu ∧ ann.vcUID ≠ cu ∧ ann.vcUID ≠ fu)) := by
  unfold shouldBeGarbageCollected
  rw [if_neg (by simp [h1, h2])]
  cases cached with
  | notFound =>
    cases fresh <;> simp
  | otherError =>
    cases fresh <;> simp
  | found cu =>
    by_cases hcu : ann.vcUID = cu
    · simp [hcu]
    · cases fresh with
      | found fu =>
        by_cases hfu : ann.vcUID = fu <;> simp [hcu, hfu]
      | notFound => simp [hcu]
      | otherError => simp [hcu]

/-- C1 witness: the amended iff applied where both lookups answer NotFound. -/
theorem C1_shouldBeGarbageCollected_iff_witness :
    shouldBeGarbageCollected ⟨"vc-a", "default", "u1"⟩ VCLookup.notFound VCLookup.notFound
      = true :=
  (C1_shouldBeGarbageCollected_iff ⟨"vc-a", "default", "u1"⟩ VCLookup.notFound
    VCLookup.notFound (by decide) (by decide)).mpr (Or.inl ⟨rfl, rfl⟩)

/-! ## Namespace patroller update handler (secret.go, package namespace) -/

/-- The action taken by the patroller's `UpdateFunc` on a (vObj, pObj) pair. -/
inductive UpdateAction where
  | deleteNS
  | requeue
  | abortUpdate
  | noop
deriving DecidableEq, Repr

/-- A super-cluster namespace as seen by the `UpdateFunc`: its VC back-reference
annotations and its `constants.LabelUID` annotation (the UID of the tenant
namespace object it was created from). -/
structure PNamespace where
  ann : NamespaceAnn
  labelUID : String
deriving DecidableEq, Repr

/-- The `UpdateFunc` closure in `PatrollerDo`: deletes the super-cluster
namespace when the GC check fires or the `constants.LabelUID` annotation
differs from the tenant namespace's UID; otherwise fetches the owning
VirtualCluster spec (`vcSpecOk` abstracts the success of
`GetVirtualClusterObject`; failure just returns), and on metadata drift
(`drift` abstracts `CheckNamespaceEquality` returning a non-nil update)
re-queues the tenant object via `OnAdd` instead of deleting anything. -/
def patrollerUpdateFunc (p : PNamespace) (cached fresh : VCLookup) (vUID : String)
    (vcSpecOk drift : Bool) : UpdateAction :=
  if shouldBeGarbageCollected p.ann cached fresh || p.labelUID != vUID then .deleteNS
  else if !vcSpecOk then .abortUpdate
  else if drift then .requeue
  else .noop

/-- C2 counterexample: a healthy pair (GC check false, matching UID annotation)
whose metadata drifts is re-queued, not deleted — the claim's "metadata drift
implies deletion" fails at this concrete input. -/
theorem C2_counterexample :
    patrollerUpdateFunc ⟨⟨"vc-a", "default", "u1"⟩, "x"⟩ (VCLookup.found "u1")
        VCLookup.notFound "x" true true = UpdateAction.requeue ∧
      UpdateAction.requeue ≠ UpdateAction.deleteNS := by
  exact ⟨by decide, by decide⟩

/-- C2 (amended): the update handler deletes the super-cluster namespace iff
the GC check fires or the `uid` annotation differs from the tenant namespace's
UID; metadata drift alone (with a healthy UID and a fetchable VirtualCluster
spec) causes the tenant namespace to be re-queued on the reconciler instead of
a deletion. -/
theorem C2_patrollerUpdateFunc_cases (p : PNamespace) (cached fresh : VCLookup)
    (vUID : String) (vcSpecOk drift : Bool) :
    (shouldBeGarbageCollected p.ann cached fresh = true ∨ p.labelUID ≠ vUID →
      patrollerUpdateFunc p cached fresh vUID vcSpecOk drift = .deleteNS) ∧
    (shouldBeGarbageCollected p.ann cached fresh = false → p.labelUID = vUID →
      vcSpecOk = true → drift = true →
      patrollerUpdateFunc p cached fresh vUID vcSpecOk drift = .requeue) := by
  constructor
  · intro h
    unfold patrollerUpdateFunc
    have : (shouldBeGarbageCollected p.ann cached fresh || p.labelUID != vUID) = true := by
      rcases h with h | h
      · simp [h]
      · simp [bne_iff_ne, h]
    rw [if_pos this]
  · intro hgc huid hok hdrift
    unfold patrollerUpdateFunc
    rw [if_neg (by simp [hgc, huid]), hok, hdrift]
    rfl

/-- C2 witness: the amended theorem applied at a concrete drifting pair (first
conjunct at a UID mismatch, second at a pure-drift input). -/
theorem C2_patrollerUpdateFunc_cases_witness :
    patrollerUpdateFunc ⟨⟨"vc-a", "default", "u1"⟩, "x"⟩ (VCLookup.found "u1")
        VCLookup.notFound "y" true false = UpdateAction.deleteNS ∧
    patrollerUpdateFunc ⟨⟨"vc-a", "default", "u1"⟩, "x"⟩ (VCLookup.found "u1")
        VCLookup.notFound "x" true true = UpdateAction.requeue :=
  ⟨(C2_patrollerUpdateFunc_cases ⟨⟨"vc-a", "default", "u1"⟩, "x"⟩ (VCLookup.found "u1")
      VCLookup.notFound "y" true false).1 (Or.inr (by decide)),
   (C2_patrollerUpdateFunc_cases ⟨⟨"vc-a", "default", "u1"⟩, "x"⟩ (VCLookup.found "u1")
      VCLookup.notFound "x" true true).2 (by decide) rfl rfl rfl⟩

/-! ## Patroller deleteNamespace (secret.go, package namespace) -/

/-- A namespace object in the super cluster's store: its name and current UID. -/
structure StoredNamespace where
  name : String
  uid : String
deriving DecidableEq, Repr

/-- `metav1.DeleteOptions`, restricted to the UID precondition used here. -/
structure DeleteOptions where
  preconditionUID : Option String
deriving DecidableEq, Repr

/-- The delete options built by `deleteNamespace`:
`metav1.NewUIDPreconditions(string(ns.GetUID()))` on the observed object. -/
def deleteNamespaceOptions (observed : StoredNamespace) : DeleteOptions :=
  ⟨some observed.uid⟩

/-- Modelled from the spec: the super-cluster apiserver's delete semantics for
`namespaceClient.Namespaces().Delete` (external to this repository). A delete
with a UID precondition removes the named object only when the stored object's
current UID equals the precondition; on mismatch (or a missing object) the
store is unchanged and the call fails. -/
def applyDelete (store : List StoredNamespace) (name : String) (opts : DeleteOptions) :
    List StoredNamespace × Bool :=
  match store.find? (fun s => s.name == name) with
  | none => (store, false)
  | some cur =>
    match opts.preconditionUID with
    | some u =>
      if cur.uid == u then (store.filter (fun s => s.name != name), true)
      else (store, false)
    | none => (store.filter (fun s => s.name != name), true)

/-- `deleteNamespace` from the patroller: delete the observed namespace by name
with the UID precondition taken from the observed object. -/
def deleteNamespace (store : List StoredNamespace) (observed : StoredNamespace) :
    List StoredNamespace × Bool :=
  applyDelete store observed.name (deleteNamespaceOptions observed)

/-- C10: every deletion issued by `deleteNamespace` carries a UID precondition
equal to the observed namespace's UID, and therefore a namespace that currently
exists under a different UID (deleted and recreated since the observation) is
left untouched: the store is unchanged and the delete fails. -/
theorem C10_deleteNamespace_uid_precondition (store : List StoredNamespace)
    (observed : StoredNamespace) :
    (deleteNamespaceOptions observed).preconditionUID = some observed.uid ∧
    (∀ cur, store.find? (fun s => s.name == observed.name) = some cur →
      cur.uid ≠ observed.uid → deleteNamespace store observed = (store, false)) := by
  refine ⟨rfl, ?_⟩
  intro cur hfind hne
  unfold deleteNamespace applyDelete deleteNamespaceOptions
  rw [hfind]
  simp only []
  rw [if_neg (by simp [hne])]

/-- C10 witness: a namespace recreated under UID u2 survives a delete that was
decided from a stale observation under UID u1. -/
theorem C10_deleteNamespace_uid_precondition_witness :
    deleteNamespace [⟨"ns1", "u2"⟩] ⟨"ns1", "u1"⟩ = ([⟨"ns1", "u2"⟩], false) :=
  (C10_deleteNamespace_uid_precondition [⟨"ns1", "u2"⟩] ⟨"ns1", "u1"⟩).2
    ⟨"ns1", "u2"⟩ (by decide) (by decide)

/-! ## Namespace scheduler reconcile
(experiment/pkg/scheduler/resource/virtualcluster/namespace/controller.go) -/

/-- A (cpu, memory) pair of resource quantities, in scheduler units. -/
structure ResourceAmount where
  cpu : Nat
  memory : Nat
deriving DecidableEq, Repr

/-- Modelled from the spec: `util.GetMaxQuota` (pkg util, not under src/) —
the coordinate-wise maximum over the resource quotas found in the namespace,
zero when there are none. -/
def getMaxQuota (quotas : List ResourceAmount) : ResourceAmount :=
  quotas.foldl (fun acc q => ⟨max acc.cpu q.cpu, max acc.memory q.memory⟩) ⟨0, 0⟩

/-- Modelled from the spec: `internalcache.GetLeastFitSliceNum` (scheduler
cache package, not under src/) — `⌊quota.r / slice.r⌋` per resource
r ∈ {cpu, memory}, the minimum across resources, together with the name of the
limiting axis. -/
def getLeastFitSliceNum (quota slice : ResourceAmount) : Nat × String :=
  let c := quota.cpu / slice.cpu
  let m := quota.memory / slice.memory
  if c ≤ m then (c, "cpu") else (m, "memory")

/-- Result of fetching an object from a cluster's informer cache. -/
inductive GetResult where
  | found
  | notFound
  | otherError
deriving DecidableEq, Repr

/-- Result of listing the resource quotas of the tenant namespace. -/
inductive QuotaListResult where
  | ok (quotas : List ResourceAmount)
  | notFound
  | otherError
deriving DecidableEq, Repr

/-- The externally visible calls a reconcile issues, in order. `writePlacements
o` is `updateSchedulingResult` on the tenant apiserver (`none` deletes the
`scheduled.placements` annotation, `some m` sets it to the JSON of `m`);
`callDeSchedule` is `SchedulerEngine.DeScheduleNamespace` (cache release);
`callEnsure` is `SchedulerEngine.EnsureNamespacePlacements`; `callSchedule` is
`SchedulerEngine.ScheduleNamespace` (which commits the reservation to the
scheduler cache); `emitEvent` is `MultiClusterController.Eventf`. -/
inductive REvent where
  | requeueAfter (seconds : Nat)
  | callDeSchedule
  | writePlacements (placements : Option (List (String × Nat)))
  | callEnsure
  | callSchedule
  | emitEvent (reason : String)
deriving DecidableEq, Repr

/-- One reconcile's inputs: the branch-deciding observations and the outcomes
of each external call it may issue. `ownerInfoOk` is `GetOwnerInfo` succeeding;
`dirty` is membership of the owning VirtualCluster in `DirtyVirtualClusters`;
`nsGet` fetches the tenant namespace; `quotaList` lists its resource quotas;
`schedInfo` is `util.GetSchedulingInfo` (parsed `scheduled.placements`
annotation and the quota slice, `none` on parse error); `descheduleOk`,
`updateOk`, `ensureOk`, `eventOk` are the outcomes of the corresponding calls;
`scheduleResult` is `ScheduleNamespace`'s returned placement map (`none` on
engine error). -/
structure ReconcileInput where
  ownerInfoOk : Bool
  dirty : Bool
  nsGet : GetResult
  quotaList : QuotaListResult
  schedInfo : Option (List (String × Nat) × ResourceAmount)
  descheduleOk : Bool
  updateOk : Bool
  ensureOk : Bool
  scheduleResult : Option (List (String × Nat))
  eventOk : Bool
deriving DecidableEq, Repr

/-- The quota the reconcile works with: the coordinate-wise max over the listed
quotas, or zero when the quota list reported NotFound. -/
def reconcileQuota (i : ReconcileInput) : ResourceAmount :=
  match i.quotaList with
  | .ok qs => getMaxQuota qs
  | _ => ⟨0, 0⟩

/-- The tail of `Reconcile` once the tenant namespace was found, the quota list
answered, and `GetSchedulingInfo` parsed: compute `expect`, handle the zero
case (clear annotation, then de-schedule), the already-consistent case
(`Ensure`), and otherwise invoke the engine and publish the result. -/
def reconcileSched (i : ReconcileInput) (placements : List (String × Nat))
    (quotaSlice : ResourceAmount) : List REvent × Bool :=
  if (getLeastFitSliceNum (reconcileQuota i) quotaSlice).1 = 0 then
    if i.updateOk then ([.writePlacements none, .callDeSchedule], i.descheduleOk)
    else ([.writePlacements none], false)
  else if (placements.map Prod.snd).sum = (getLeastFitSliceNum (reconcileQuota i) quotaSlice).1
  then ([.callEnsure], i.ensureOk)
  else
    match i.scheduleResult with
    | none => ([.callSchedule, .emitEvent "Failed"], false)
    | some ret =>
      if i.updateOk then
        ([.callSchedule, .writePlacements (some ret), .emitEvent "Scheduled"], i.eventOk)
      else ([.callSchedule, .writePlacements (some ret)], false)

/-- `Reconcile` from the experiment scheduler's namespace controller, as the
ordered list of external calls it issues plus the success flag (`true` when the
returned error is nil; the dirty-requeue result is a successful return). -/
def Reconcile (i : ReconcileInput) : List REvent × Bool :=
  if i.ownerInfoOk then
    if i.dirty then ([.requeueAfter 5], true)
    else
      match i.nsGet with
      | .otherError => ([], false)
      | .notFound => ([.callDeSchedule], i.descheduleOk)
      | .found =>
        match i.quotaList with
        | .otherError => ([], false)
        | _ =>
          match i.schedInfo with
          | none => ([], false)
          | some (placements, quotaSlice) => reconcileSched i placements quotaSlice
  else ([], false)

/-- The post-lookup tail takes one of five shapes. -/
theorem reconcileSched_shapes (i : ReconcileInput) (placements : List (String × Nat))
    (quotaSlice : ResourceAmount) :
    reconcileSched i placements quotaSlice = ([.writePlacements none, .callDeSchedule], i.descheduleOk) ∨
    reconcileSched i placements quotaSlice = ([.writePlacements none], false) ∨
    reconcileSched i placements quotaSlice = ([.callEnsure], i.ensureOk) ∨
    (i.scheduleResult = none ∧
      reconcileSched i placements quotaSlice = ([.callSchedule, .emitEvent "Failed"], false)) ∨
    (∃ ret, i.scheduleResult = some ret ∧
      (reconcileSched i placements quotaSlice =
          ([.callSchedule, .writePlacements (some ret), .emitEvent "Scheduled"], i.eventOk) ∨
        reconcileSched i placements quotaSlice =
          ([.callSchedule, .writePlacements (some ret)], false))) := by
  unfold reconcileSched
  by_cases hexp : (getLeastFitSliceNum (reconcileQuota i) quotaSlice).1 = 0
  · rw [if_pos hexp]
    by_cases huok : i.updateOk
    · rw [if_pos huok]; exact Or.inl rfl
    · rw [if_neg huok]; exact Or.inr (Or.inl rfl)
  · rw [if_neg hexp]
    by_cases hnum : (placements.map Prod.snd).sum =
        (getLeastFitSliceNum (reconcileQuota i) quotaSlice).1
    · rw [if_pos hnum]; exact Or.inr (Or.inr (Or.inl rfl))
    · rw [if_neg hnum]
      cases hs : i.scheduleResult with
      | none => exact Or.inr (Or.inr (Or.inr (Or.inl ⟨rfl, rfl⟩)))
      | some ret =>
        dsimp only
        by_cases huok : i.updateOk
        · rw [if_pos huok]
          exact Or.inr (Or.inr (Or.inr (Or.inr ⟨ret, rfl, Or.inl rfl⟩)))
        · rw [if_neg huok]
          exact Or.inr (Or.inr (Or.inr (Or.inr ⟨ret, rfl, Or.inr rfl⟩)))

/-- Every reconcile's call trace is one of finitely many shapes. -/
theorem reconcile_trace_shapes (i : ReconcileInput) :
    Reconcile i = ([], false) ∨
    Reconcile i = ([.requeueAfter 5], true) ∨
    Reconcile i = ([.callDeSchedule], i.descheduleOk) ∨
    Reconcile i = ([.writePlacements none, .callDeSchedule], i.descheduleOk) ∨
    Reconcile i = ([.writePlacements none], false) ∨
    Reconcile i = ([.callEnsure], i.ensureOk) ∨
    (i.scheduleResult = none ∧ Reconcile i = ([.callSchedule, .emitEvent "Failed"], false)) ∨
    (∃ ret, i.scheduleResult = some ret ∧
      (Reconcile i = ([.callSchedule, .writePlacements (some ret), .emitEvent "Scheduled"], i.eventOk) ∨
        Reconcile i = ([.callSchedule, .writePlacements (some ret)], false))) := by
  have hsched : ∀ pl qs, Reconcile i = reconcileSched i pl qs →
      Reconcile i = ([.writePlacements none, .callDeSchedule], i.descheduleOk) ∨
      Reconcile i = ([.writePlacements none], false) ∨
      Reconcile i = ([.callEnsure], i.ensureOk) ∨
      (i.scheduleResult = none ∧ Reconcile i = ([.callSchedule, .emitEvent "Failed"], false)) ∨
      (∃ ret, i.scheduleResult = some ret ∧
        (Reconcile i = ([.callSchedule, .writePlacements (some ret), .emitEvent "Scheduled"], i.eventOk) ∨
          Reconcile i = ([.callSchedule, .writePlacements (some ret)], false))) := by
    intro pl qs h
    rw [h]
    exact reconcileSched_shapes i pl qs
  rcases i with ⟨oio, dirty, nsGet, quotaList, schedInfo, dOk, uOk, eOk, schedRes, evOk⟩
  cases oio with
  | false => exact Or.inl rfl
  | true =>
  cases dirty with
  | true => exact Or.inr (Or.inl rfl)
  | false =>
  cases nsGet with
  | otherError => exact Or.inl rfl
  | notFound => exact Or.inr (Or.inr (Or.inl rfl))
  | found =>
  cases quotaList with
  | otherError => exact Or.inl rfl
  | ok qs =>
    rcases schedInfo with _ | ⟨pl, slice⟩
    · exact Or.inl rfl
    · rcases hsched pl slice rfl with h | h | h | ⟨hn, h⟩ | ⟨ret, hr, h | h⟩
      · exact Or.inr (Or.inr (Or.inr (Or.inl h)))
      · exact Or.inr (Or.inr (Or.inr (Or.inr (Or.inl h))))
      · exact Or.inr (Or.inr (Or.inr (Or.inr (Or.inr (Or.inl h)))))
      · exact Or.inr (Or.inr (Or.inr (Or.inr (Or.inr (Or.inr (Or.inl ⟨hn, h⟩))))))
      · exact Or.inr (Or.inr (Or.inr (Or.inr (Or.inr (Or.inr (Or.inr ⟨ret, hr, Or.inl h⟩))))))
      · exact Or.inr (Or.inr (Or.inr (Or.inr (Or.inr (Or.inr (Or.inr ⟨ret, hr, Or.inr h⟩))))))
  | notFound =>
    rcases schedInfo with _ | ⟨pl, slice⟩
    · exact Or.inl rfl
    · rcases hsched pl slice rfl with h | h | h | ⟨hn, h⟩ | ⟨ret, hr, h | h⟩
      · exact Or.inr (Or.inr (Or.inr (Or.inl h)))
      · exact Or.inr (Or.inr (Or.inr (Or.inr (Or.inl h))))
      · exact Or.inr (Or.inr (Or.inr (Or.inr (Or.inr (Or.inl h)))))
      · exact Or.inr (Or.inr (Or.inr (Or.inr (Or.inr (Or.inr (Or.inl ⟨hn, h⟩))))))
      · exact Or.inr (Or.inr (Or.inr (Or.inr (Or.inr (Or.inr (Or.inr ⟨ret, hr, Or.inl h⟩))))))
      · exact Or.inr (Or.inr (Or.inr (Or.inr (Or.inr (Or.inr (Or.inr ⟨ret, hr, Or.inr h⟩))))))

/-- C3 counterexample: on a concrete reconcile whose quota is gone (expect = 0),
the issued trace is annotation-removal first, then cache release — there is no
decomposition of the trace in which the cache release (`callDeSchedule`)
precedes the annotation removal (`writePlacements none`), so the claimed
release-before-unannotate order fails. -/
theorem C3_counterexample :
    (Reconcile ⟨true, false, .found, .notFound, some ([], ⟨1, 1⟩), true, true, true, none,
        true⟩).1 = [.writePlacements none, .callDeSchedule] ∧
    ¬ ∃ l1 l2 l3 : List REvent,
      (Reconcile ⟨true, false, .found, .notFound, some ([], ⟨1, 1⟩), true, true, true, none,
          true⟩).1 = l1 ++ .callDeSchedule :: (l2 ++ .writePlacements none :: l3) := by
  refine ⟨by decide, ?_⟩
  rintro ⟨l1, l2, l3, h⟩
  rw [show (Reconcile ⟨true, false, .found, .notFound, some ([], ⟨1, 1⟩), true, true, true,
      none, true⟩).1 = [.writePlacements none, .callDeSchedule] from by decide] at h
  have hlen := congrArg List.length h
  simp only [List.length_append, List.length_cons, List.length_nil] at hlen
  have h1 : l1 = [] := List.eq_nil_of_length_eq_zero (by omega)
  have h2 : l2 = [] := List.eq_nil_of_length_eq_zero (by omega)
  have h3 : l3 = [] := List.eq_nil_of_length_eq_zero (by omega)
  subst h1; subst h2; subst h3
  simp at h

/-- C3 (amended): whenever a reconcile reaches the found-namespace branch and
computes expect = 0, the annotation removal is issued first; only when it
succeeds is the cache entry released (so both happen exactly when the removal
succeeds, in the order unannotate-then-release), and on removal failure no
release is issued and the reconcile errors. -/
theorem C3_expectZero_unannotate_then_release (i : ReconcileInput)
    (pl : List (String × Nat)) (slice : ResourceAmount)
    (hown : i.ownerInfoOk = true) (hdirty : i.dirty = false) (hns : i.nsGet = .found)
    (hq : i.quotaList ≠ .otherError) (hsi : i.schedInfo = some (pl, slice))
    (hexp : (getLeastFitSliceNum (reconcileQuota i) slice).1 = 0) :
    (i.updateOk = true →
      Reconcile i = ([.writePlacements none, .callDeSchedule], i.descheduleOk)) ∧
    (i.updateOk = false → Reconcile i = ([.writePlacements none], false)) := by
  have hR : Reconcile i = reconcileSched i pl slice := by
    unfold Reconcile
    rw [hown, hdirty, hns, hsi]
    cases hql : i.quotaList with
    | otherError => exact absurd hql hq
    | ok qs => simp
    | notFound => simp
  constructor
  · intro hu
    rw [hR]
    unfold reconcileSched
    rw [if_pos hexp, if_pos hu]
  · intro hu
    rw [hR]
    unfold reconcileSched
    rw [if_pos hexp, if_neg (by simp [hu])]

/-- C3 witness: the amended theorem evaluated on the quota-gone reconcile. -/
theorem C3_expectZero_unannotate_then_release_witness :
    Reconcile ⟨true, false, .found, .notFound, some ([], ⟨1, 1⟩), true, true, true, none, true⟩
      = ([.writePlacements none, .callDeSchedule], true) :=
  (C3_expectZero_unannotate_then_release
    ⟨true, false, .found, .notFound, some ([], ⟨1, 1⟩), true, true, true, none, true⟩
    [] ⟨1, 1⟩ rfl rfl rfl (by decide) rfl (by decide)).1 rfl

/-- C8: in every reconcile, a placement annotation is published to the tenant
apiserver only directly after a successful `ScheduleNamespace` call (which
committed the reservation to the scheduler cache) returning exactly those
placements; and when the engine is invoked but fails, the reconcile emits the
Failed event, publishes no annotation change at all, and returns the error. -/
theorem C8_commit_before_publish (i : ReconcileInput) :
    (∀ pm, REvent.writePlacements (some pm) ∈ (Reconcile i).1 →
      i.scheduleResult = some pm ∧
      ∃ rest, (Reconcile i).1 = .callSchedule :: .writePlacements (some pm) :: rest) ∧
    (i.scheduleResult = none → REvent.callSchedule ∈ (Reconcile i).1 →
      Reconcile i = ([.callSchedule, .emitEvent "Failed"], false) ∧
      ∀ o, REvent.writePlacements o ∉ (Reconcile i).1) := by
  rcases reconcile_trace_shapes i with h | h | h | h | h | h | ⟨hn, h⟩ | ⟨ret, hr, h | h⟩
  · exact ⟨fun pm hm => by rw [h] at hm; simp at hm,
      fun _ hm => by rw [h] at hm; simp at hm⟩
  · exact ⟨fun pm hm => by rw [h] at hm; simp at hm,
      fun _ hm => by rw [h] at hm; simp at hm⟩
  · exact ⟨fun pm hm => by rw [h] at hm; simp at hm,
      fun _ hm => by rw [h] at hm; simp at hm⟩
  · exact ⟨fun pm hm => by rw [h] at hm; simp at hm,
      fun _ hm => by rw [h] at hm; simp at hm⟩
  · exact ⟨fun pm hm => by rw [h] at hm; simp at hm,
      fun _ hm => by rw [h] at hm; simp at hm⟩
  · exact ⟨fun pm hm => by rw [h] at hm; simp at hm,
      fun _ hm => by rw [h] at hm; simp at hm⟩
  · refine ⟨fun pm hm => by rw [h] at hm; simp at hm, fun _ _ => ⟨h, ?_⟩⟩
    intro o hm
    rw [h] at hm
    simp at hm
  · refine ⟨?_, ?_⟩
    · intro pm hm
      rw [h] at hm
      simp only [List.mem_cons, List.not_mem_nil, or_false] at hm
      rcases hm with hm | hm | hm
      · exact absurd hm (by simp)
      · have hpm : pm = ret := by
          have := REvent.writePlacements.inj hm
          exact Option.some.inj this
        subst hpm
        exact ⟨hr, [REvent.emitEvent "Scheduled"], by rw [h]⟩
      · exact absurd hm (by simp)
    · intro hn
      rw [hr] at hn
      exact absurd hn (by simp)
  · refine ⟨?_, ?_⟩
    · intro pm hm
      rw [h] at hm
      simp only [List.mem_cons, List.not_mem_nil, or_false] at hm
      rcases hm with hm | hm
      · exact absurd hm (by simp)
      · have hpm : pm = ret := by
          have := REvent.writePlacements.inj hm
          exact Option.some.inj this
        subst hpm
        exact ⟨hr, [], by rw [h]⟩
    · intro hn
      rw [hr] at hn
      exact absurd hn (by simp)

/-- C8 witness: the theorem applied on one reconcile whose engine succeeds
(first conjunct) and one whose engine fails (second conjunct). -/
theorem C8_commit_before_publish_witness :
    (∃ rest, (Reconcile ⟨true, false, .found, .ok [⟨4, 4⟩], some ([], ⟨1, 1⟩), true, true,
        true, some [("c1", 4)], true⟩).1 =
      .callSchedule :: .writePlacements (some [("c1", 4)]) :: rest) ∧
    Reconcile ⟨true, false, .found, .ok [⟨4, 4⟩], some ([], ⟨1, 1⟩), true, true, true,
        none, true⟩ = ([.callSchedule, .emitEvent "Failed"], false) :=
  ⟨((C8_commit_before_publish ⟨true, false, .found, .ok [⟨4, 4⟩], some ([], ⟨1, 1⟩), true,
      true, true, some [("c1", 4)], true⟩).1 [("c1", 4)] (by decide)).2,
   ((C8_commit_before_publish ⟨true, false, .found, .ok [⟨4, 4⟩], some ([], ⟨1, 1⟩), true,
      true, true, none, true⟩).2 rfl (by decide)).1⟩

/-! ## Tenant provisioner (provisioner_native.go) -/

/-- Kubernetes service types distinguished by the provisioner. -/
inductive ServiceKind where
  | clusterIP
  | nodePort
deriving DecidableEq, Repr, Fintype

/-- Result of a `Create` call against the super cluster. -/
inductive CreateResult where
  | ok
  | alreadyExists
  | otherErr
deriving DecidableEq, Repr, Fintype

/-- The provisioning steps of `CreateVirtualCluster`, in trace order. The
`createPKI` step records whether the ClusterIP path was taken (so the PKI is
minted with the possibly empty cluster IP of the service created earlier). -/
inductive PStep where
  | getCV
  | createRootNS
  | createAPIService
  | createPKI (isClusterIP : Bool)
  | deployEtcd
  | deployAPIServer
  | deployCtrlMgr
deriving DecidableEq, Repr

/-- The oracles deciding each branch of `CreateVirtualCluster`: whether the
ClusterVersion was found, whether `CreateRootNS` succeeded, the API server
service descriptor (`none` = nil) and its type, the result of the service
`Create`, and the composite outcomes of `createPKI` and the three
`deployComponent` calls. -/
structure CVCInput where
  cvFound : Bool
  rootNS : Bool
  apiService : Option ServiceKind
  svcCreate : CreateResult
  pki : Bool
  etcd : Bool
  apiserver : Bool
  ctrlMgr : Bool
deriving DecidableEq, Repr

/-- `isClusterIP` from `CreateVirtualCluster`:
`cv.Spec.APIServer.Service != nil && type == ClusterIP`. -/
def isClusterIP (i : CVCInput) : Bool :=
  i.apiService = some ServiceKind.clusterIP

/-- The tail of `CreateVirtualCluster` after the service step: mint PKI, deploy
etcd, apiserver, controller-manager, each short-circuiting on error. -/
def restAfterService (isCIP pki etcd apiserver ctrlMgr : Bool) (pre : List PStep) :
    List PStep × Bool :=
  if pki = false then (pre ++ [.createPKI isCIP], false)
  else if etcd = false then (pre ++ [.createPKI isCIP, .deployEtcd], false)
  else if apiserver = false then (pre ++ [.createPKI isCIP, .deployEtcd, .deployAPIServer], false)
  else if ctrlMgr = false then
    (pre ++ [.createPKI isCIP, .deployEtcd, .deployAPIServer, .deployCtrlMgr], false)
  else (pre ++ [.createPKI isCIP, .deployEtcd, .deployAPIServer, .deployCtrlMgr], true)

/-- `CreateVirtualCluster` from provisioner_native.go, as the ordered list of
provisioning steps it attempts plus the success flag: fetch the
ClusterVersion, create the root namespace, create the API server service only
on the ClusterIP path (tolerating AlreadyExists), then mint the PKI and deploy
etcd, apiserver and controller-manager; every error returns immediately. -/
def CreateVirtualCluster (i : CVCInput) : List PStep × Bool :=
  if i.cvFound = false then ([.getCV], false)
  else if i.rootNS = false then ([.getCV, .createRootNS], false)
  else if isClusterIP i then
    if i.svcCreate = .otherErr then ([.getCV, .createRootNS, .createAPIService], false)
    else restAfterService true i.pki i.etcd i.apiserver i.ctrlMgr
      [.getCV, .createRootNS, .createAPIService]
  else restAfterService false i.pki i.etcd i.apiserver i.ctrlMgr [.getCV, .createRootNS]

/-- The full fixed step order for a given input: root namespace after the CV
fetch, the API service exactly when the service type is ClusterIP, then PKI,
etcd, apiserver, controller-manager. -/
def expectedSteps (i : CVCInput) : List PStep :=
  [.getCV, .createRootNS] ++ (if isClusterIP i then [.createAPIService] else []) ++
    [.createPKI (isClusterIP i), .deployEtcd, .deployAPIServer, .deployCtrlMgr]

/-- Whether each provisioning step succeeds under the given input (the service
create counts AlreadyExists as success). -/
def stepOk (i : CVCInput) : PStep → Bool
  | .getCV => i.cvFound
  | .createRootNS => i.rootNS
  | .createAPIService => i.svcCreate != .otherErr
  | .createPKI _ => i.pki
  | .deployEtcd => i.etcd
  | .deployAPIServer => i.apiserver
  | .deployCtrlMgr => i.ctrlMgr

/-- C5: for every input, the trace of `CreateVirtualCluster` is exactly the
fixed expected order truncated right after the first failing step (the whole
order when none fails), and it succeeds iff every step succeeds — so steps run
in the fixed order, the API service is created only on the ClusterIP path, and
any failing step short-circuits all later steps. -/
theorem C5_createVirtualCluster_order (cvFound rootNS : Bool)
    (apiService : Option ServiceKind) (svcCreate : CreateResult)
    (pki etcd apiserver ctrlMgr : Bool) :
    (CreateVirtualCluster ⟨cvFound, rootNS, apiService, svcCreate, pki, etcd, apiserver,
        ctrlMgr⟩).1 =
      (match (expectedSteps ⟨cvFound, rootNS, apiService, svcCreate, pki, etcd, apiserver,
          ctrlMgr⟩).findIdx?
          (fun s => !stepOk ⟨cvFound, rootNS, apiService, svcCreate, pki, etcd, apiserver,
            ctrlMgr⟩ s) with
        | none => expectedSteps ⟨cvFound, rootNS, apiService, svcCreate, pki, etcd, apiserver,
            ctrlMgr⟩
        | some k => (expectedSteps ⟨cvFound, rootNS, apiService, svcCreate, pki, etcd,
            apiserver, ctrlMgr⟩).take (k + 1)) ∧
    (CreateVirtualCluster ⟨cvFound, rootNS, apiService, svcCreate, pki, etcd, apiserver,
        ctrlMgr⟩).2 =
      (expectedSteps ⟨cvFound, rootNS, apiService, svcCreate, pki, etcd, apiserver,
        ctrlMgr⟩).all
        (stepOk ⟨cvFound, rootNS, apiService, svcCreate, pki, etcd, apiserver, ctrlMgr⟩) := by
  revert cvFound rootNS apiService svcCreate pki etcd apiserver ctrlMgr
  decide

/-- A call to `kubeconfig.GenerateKubeconfig(user, clusterName, server, groups,
rootCAPair)`, recording everything but the CA pair. -/
structure KbCfgCall where
  user : String
  clusterName : String
  server : String
  groups : List String
deriving DecidableEq, Repr

/-- The oracles deciding `createPKI`'s branches: the outcomes of the four
cert/key generations, the service cluster-IP lookup (`none` on
`GetSvcClusterIP` error; the provisioner then proceeds with the empty IP,
logging a warning), the two kubeconfig renderings and the service-account key
generation. -/
structure PKIInput where
  rootCAOk : Bool
  etcdCertOk : Bool
  frontProxyCertOk : Bool
  svcIP : Option String
  apiserverCertOk : Bool
  ctrlMgrKbOk : Bool
  adminKbOk : Bool
  saKeyOk : Bool
deriving DecidableEq, Repr

/-- The cluster IP string available inside `createPKI`: empty unless the
ClusterIP path is taken and the lookup succeeded. -/
def obtainedClusterIP (isCIP : Bool) (svcIP : Option String) : String :=
  if isCIP then (match svcIP with | some s => s | none => "") else ""

/-- `finalAPIAddress` from `createPKI`: starts as the API server DNS domain and
is overwritten by the cluster IP when that is non-empty. -/
def finalAPIAddress (apiserverDomain clusterIP : String) : String :=
  if clusterIP ≠ "" then clusterIP else apiserverDomain

/-- The controller-manager kubeconfig call:
`GenerateKubeconfig("system:kube-controller-manager", vc.Name, addr, [], root)`. -/
def ctrlMgrKbCall (vcName addr : String) : KbCfgCall :=
  ⟨"system:kube-controller-manager", vcName, addr, []⟩

/-- The admin kubeconfig call:
`GenerateKubeconfig("admin", vc.Name, addr, ["system:masters"], root)`. -/
def adminKbCall (vcName addr : String) : KbCfgCall :=
  ⟨"admin", vcName, addr, ["system:masters"]⟩

/-- `createPKI` from provisioner_native.go, as the list of
`GenerateKubeconfig` calls it issues plus overall success: root CA, etcd cert,
front-proxy cert, cluster-IP lookup, apiserver cert, controller-manager
kubeconfig, admin kubeconfig, service-account key, then secret persistence
(`secretsOk` abstracts `createPKISecrets`); every error returns immediately. -/
def createPKI (vcName apiserverDomain : String) (isCIP : Bool) (i : PKIInput)
    (secretsOk : Bool) : List KbCfgCall × Bool :=
  if i.rootCAOk = false then ([], false)
  else if i.etcdCertOk = false then ([], false)
  else if i.frontProxyCertOk = false then ([], false)
  else if i.apiserverCertOk = false then ([], false)
  else if i.ctrlMgrKbOk = false then
    ([ctrlMgrKbCall vcName (finalAPIAddress apiserverDomain (obtainedClusterIP isCIP i.svcIP))],
      false)
  else if i.adminKbOk = false then
    ([ctrlMgrKbCall vcName (finalAPIAddress apiserverDomain (obtainedClusterIP isCIP i.svcIP)),
      adminKbCall vcName (finalAPIAddress apiserverDomain (obtainedClusterIP isCIP i.svcIP))],
      false)
  else if i.saKeyOk = false then
    ([ctrlMgrKbCall vcName (finalAPIAddress apiserverDomain (obtainedClusterIP isCIP i.svcIP)),
      adminKbCall vcName (finalAPIAddress apiserverDomain (obtainedClusterIP isCIP i.svcIP))],
      false)
  else
    ([ctrlMgrKbCall vcName (finalAPIAddress apiserverDomain (obtainedClusterIP isCIP i.svcIP)),
      adminKbCall vcName (finalAPIAddress apiserverDomain (obtainedClusterIP isCIP i.svcIP))],
      secretsOk)

/-- The kubeconfig call list of `createPKI` is empty, the controller-manager
call alone, or both calls, always at the `finalAPIAddress`. -/
theorem createPKI_calls_cases (vcName apiserverDomain : String) (isCIP : Bool)
    (i : PKIInput) (secretsOk : Bool) :
    (createPKI vcName apiserverDomain isCIP i secretsOk).1 = [] ∨
    (createPKI vcName apiserverDomain isCIP i secretsOk).1 =
      [ctrlMgrKbCall vcName (finalAPIAddress apiserverDomain (obtainedClusterIP isCIP i.svcIP))] ∨
    (createPKI vcName apiserverDomain isCIP i secretsOk).1 =
      [ctrlMgrKbCall vcName (finalAPIAddress apiserverDomain (obtainedClusterIP isCIP i.svcIP)),
        adminKbCall vcName (finalAPIAddress apiserverDomain (obtainedClusterIP isCIP i.svcIP))] := by
  unfold createPKI
  by_cases h1 : i.rootCAOk = false
  · rw [if_pos h1]; exact Or.inl rfl
  rw [if_neg h1]
  by_cases h2 : i.etcdCertOk = false
  · rw [if_pos h2]; exact Or.inl rfl
  rw [if_neg h2]
  by_cases h3 : i.frontProxyCertOk = false
  · rw [if_pos h3]; exact Or.inl rfl
  rw [if_neg h3]
  by_cases h4 : i.apiserverCertOk = false
  · rw [if_pos h4]; exact Or.inl rfl
  rw [if_neg h4]
  by_cases h5 : i.ctrlMgrKbOk = false
  · rw [if_pos h5]; exact Or.inr (Or.inl rfl)
  rw [if_neg h5]
  by_cases h6 : i.adminKbOk = false
  · rw [if_pos h6]; exact Or.inr (Or.inr rfl)
  rw [if_neg h6]
  by_cases h7 : i.saKeyOk = false
  · rw [if_pos h7]; exact Or.inr (Or.inr rfl)
  rw [if_neg h7]
  exact Or.inr (Or.inr rfl)

/-- C6: every `GenerateKubeconfig` call issued by `createPKI` — the
controller-manager one and the admin one alike — carries as server address the
obtained cluster IP when that is non-empty, and otherwise the API server DNS
domain; moreover on success exactly these two calls were issued. -/
theorem C6_kubeconfig_server_address (vcName apiserverDomain : String) (isCIP : Bool)
    (i : PKIInput) (secretsOk : Bool) :
    (∀ c ∈ (createPKI vcName apiserverDomain isCIP i secretsOk).1,
      (obtainedClusterIP isCIP i.svcIP ≠ "" → c.server = obtainedClusterIP isCIP i.svcIP) ∧
      (obtainedClusterIP isCIP i.svcIP = "" → c.server = apiserverDomain)) ∧
    ((createPKI vcName apiserverDomain isCIP i secretsOk).2 = true →
      (createPKI vcName apiserverDomain isCIP i secretsOk).1 =
        [ctrlMgrKbCall vcName (finalAPIAddress apiserverDomain (obtainedClusterIP isCIP i.svcIP)),
          adminKbCall vcName (finalAPIAddress apiserverDomain
            (obtainedClusterIP isCIP i.svcIP))]) := by
  have haddr : ∀ c ∈ (createPKI vcName apiserverDomain isCIP i secretsOk).1,
      c.server = finalAPIAddress apiserverDomain (obtainedClusterIP isCIP i.svcIP) := by
    rcases createPKI_calls_cases vcName apiserverDomain isCIP i secretsOk with h | h | h <;>
      rw [h]
    · intro c hc; simp at hc
    · intro c hc
      simp only [List.mem_singleton] at hc
      subst hc; rfl
    · intro c hc
      simp only [List.mem_cons, List.not_mem_nil, or_false] at hc
      rcases hc with hc | hc <;> subst hc <;> rfl
  constructor
  · intro c hc
    have hs := haddr c hc
    constructor
    · intro hne
      rw [hs]
      unfold finalAPIAddress
      rw [if_pos hne]
    · intro hemp
      rw [hs]
      unfold finalAPIAddress
      rw [hemp, if_neg (by simp)]
  · intro hok
    unfold createPKI at hok ⊢
    by_cases h1 : i.rootCAOk = false
    · rw [if_pos h1] at hok; exact absurd hok (by simp)
    rw [if_neg h1] at hok ⊢
    by_cases h2 : i.etcdCertOk = false
    · rw [if_pos h2] at hok; exact absurd hok (by simp)
    rw [if_neg h2] at hok ⊢
    by_cases h3 : i.frontProxyCertOk = false
    · rw [if_pos h3] at hok; exact absurd hok (by simp)
    rw [if_neg h3] at hok ⊢
    by_cases h4 : i.apiserverCertOk = false
    · rw [if_pos h4] at hok; exact absurd hok (by simp)
    rw [if_neg h4] at hok ⊢
    by_cases h5 : i.ctrlMgrKbOk = false
    · rw [if_pos h5] at hok; exact absurd hok (by simp)
    rw [if_neg h5] at hok ⊢
    by_cases h6 : i.adminKbOk = false
    · rw [if_pos h6] at hok; exact absurd hok (by simp)
    rw [if_neg h6] at hok ⊢
    by_cases h7 : i.saKeyOk = false
    · rw [if_pos h7] at hok; exact absurd hok (by simp)
    rw [if_neg h7]

/-- C6 witness: both kubeconfig calls on a successful ClusterIP run carry the
allocated cluster IP, and on a DNS-only run carry the API server domain. -/
theorem C6_kubeconfig_server_address_witness :
    (createPKI "vc-a" "apiserver.ns.svc" true ⟨true, true, true, some "10.0.0.7", true, true,
        true, true⟩ true).1 =
      [ctrlMgrKbCall "vc-a" "10.0.0.7", adminKbCall "vc-a" "10.0.0.7"] ∧
    ∀ c ∈ (createPKI "vc-a" "apiserver.ns.svc" false ⟨true, true, true, none, true, true,
        true, true⟩ true).1, c.server = "apiserver.ns.svc" :=
  ⟨((C6_kubeconfig_server_address "vc-a" "apiserver.ns.svc" true
      ⟨true, true, true, some "10.0.0.7", true, true, true, true⟩ true).2 (by decide)).trans
    (by decide),
   fun c hc =>
    ((C6_kubeconfig_server_address "vc-a" "apiserver.ns.svc" false
      ⟨true, true, true, none, true, true, true, true⟩ true).1 c hc).2 rfl⟩

/-- The object-store operations issued during provisioning. `updateObject` is
never produced by any of the embedded functions; it exists so that "no update
is ever performed" is expressible. -/
inductive SOp where
  | createSecret (name : String)
  | createWorkload (name : String)
  | createService (name : String)
  | updateObject (name : String)
  | waitReady (name : String)
deriving DecidableEq, Repr

/-- The seven secrets of `createPKISecrets`, in creation order. -/
def secretNames : List String :=
  [RootCASecretName, APIServerCASecretName, ETCDCASecretName, FrontProxyCASecretName,
    ControllerManagerSecretName, AdminSecretName, ServiceAccountSecretName]

/-- The create loop at the end of `createPKISecrets`: issue the creates in
order; an AlreadyExists answer is logged and the loop continues; any other
error returns it immediately. -/
def createSecretsLoop (create : String → CreateResult) : List String → List SOp × Bool
  | [] => ([], true)
  | n :: rest =>
    match create n with
    | .otherErr => ([.createSecret n], false)
    | _ =>
      ((SOp.createSecret n) :: (createSecretsLoop create rest).1,
        (createSecretsLoop create rest).2)

/-- `createPKISecrets` from provisioner_native.go: builds the seven secrets
(`rsaOk` abstracts `RsaKeyToSecret` succeeding — its only failure is the
public-key PEM encode, before any create is issued) and then runs the create
loop over them. -/
def createPKISecrets (rsaOk : Bool) (create : String → CreateResult) : List SOp × Bool :=
  if rsaOk then createSecretsLoop create secretNames else ([], false)

/-- `deployComponent` from provisioner_native.go: reject unknown component
names, create the StatefulSet (AlreadyExists tolerated), create the Service
when present except for the apiserver's ClusterIP service (already created by
`CreateVirtualCluster`; AlreadyExists tolerated), then wait for readiness.
`svcKind` is `none` when `ssBdl.Service == nil`. -/
def deployComponent (name : String) (svcKind : Option ServiceKind)
    (stsCreate svcCreate : CreateResult) (waitOk : Bool) : List SOp × Bool :=
  if name ≠ "etcd" ∧ name ≠ "apiserver" ∧ name ≠ "controller-manager" then ([], false)
  else
    match stsCreate with
    | .otherErr => ([.createWorkload name], false)
    | _ =>
      if svcKind ≠ none ∧ ¬(name = "apiserver" ∧ svcKind = some ServiceKind.clusterIP) then
        match svcCreate with
        | .otherErr => ([.createWorkload name, .createService name], false)
        | _ => ([.createWorkload name, .createService name, .waitReady name], waitOk)
      else ([.createWorkload name, .waitReady name], waitOk)

/-- Collapse AlreadyExists to plain success; a create treats AlreadyExists as
success exactly when it is insensitive to this collapse. -/
def asOk : CreateResult → CreateResult
  | .alreadyExists => .ok
  | r => r

/-- The secret create loop cannot tell AlreadyExists from success. -/
theorem createSecretsLoop_asOk (create : String → CreateResult) (names : List String) :
    createSecretsLoop (fun n => asOk (create n)) names = createSecretsLoop create names := by
  induction names with
  | nil => rfl
  | cons n rest ih =>
    have ih' : createSecretsLoop (fun m => match create m with
        | CreateResult.alreadyExists => CreateResult.ok
        | r => r) rest = createSecretsLoop create rest := ih
    unfold createSecretsLoop
    cases h : create n <;> (dsimp only [asOk]; try rfl) <;> rw [ih']

/-- With no hard create error, the loop issues every create and succeeds. -/
theorem createSecretsLoop_all_ok (create : String → CreateResult) (names : List String)
    (h : ∀ n ∈ names, create n ≠ .otherErr) :
    createSecretsLoop create names = (names.map SOp.createSecret, true) := by
  induction names with
  | nil => rfl
  | cons n rest ih =>
    unfold createSecretsLoop
    cases hn : create n with
    | otherErr => exact absurd hn (h n (List.mem_cons_self n rest))
    | ok =>
      rw [ih (fun m hm => h m (List.mem_cons_of_mem n hm))]
      simp
    | alreadyExists =>
      rw [ih (fun m hm => h m (List.mem_cons_of_mem n hm))]
      simp

/-- The first hard create error aborts the loop right after its own create. -/
theorem createSecretsLoop_abort (create : String → CreateResult) (pre : List String) :
    ∀ n post, (∀ m ∈ pre, create m ≠ .otherErr) → create n = .otherErr →
      createSecretsLoop create (pre ++ n :: post) =
        ((pre ++ [n]).map SOp.createSecret, false) := by
  induction pre with
  | nil =>
    intro n post _ hn
    unfold createSecretsLoop
    simp [hn]
  | cons m pre ih =>
    intro n post hpre hn
    unfold createSecretsLoop
    cases hm : create m with
    | otherErr => exact absurd hm (hpre m (List.mem_cons_self m pre))
    | ok =>
      rw [List.cons_append]
      simp only [hm]
      rw [ih n post (fun x hx => hpre x (List.mem_cons_of_mem m hx)) hn]
      simp
    | alreadyExists =>
      rw [List.cons_append]
      simp only [hm]
      rw [ih n post (fun x hx => hpre x (List.mem_cons_of_mem m hx)) hn]
      simp

/-- The secret create loop issues creates only. -/
theorem createSecretsLoop_no_update (create : String → CreateResult) (names : List String)
    (t : String) : SOp.updateObject t ∉ (createSecretsLoop create names).1 := by
  induction names with
  | nil => simp [createSecretsLoop]
  | cons n rest ih =>
    unfold createSecretsLoop
    cases h : create n with
    | otherErr => simp
    | ok => simp [ih]
    | alreadyExists => simp [ih]

/-- C9: every create issued during provisioning treats AlreadyExists as
success — the secret loop, the component deploys, and the provisioner's API
service create behave identically when AlreadyExists is collapsed to success,
so the existing object is left intact and the next step proceeds; no update
operation is ever issued; and a create failing with any other error aborts:
the secret loop stops right after the failing create and errors, and a failing
StatefulSet create ends the component deploy. -/
theorem C9_create_or_skip (rsaOk : Bool) (create : String → CreateResult) (name : String)
    (svcKind : Option ServiceKind) (stsC svcC : CreateResult) (waitOk : Bool) (i : CVCInput) :
    createPKISecrets rsaOk (fun n => asOk (create n)) = createPKISecrets rsaOk create ∧
    deployComponent name svcKind (asOk stsC) (asOk svcC) waitOk =
      deployComponent name svcKind stsC svcC waitOk ∧
    CreateVirtualCluster { i with svcCreate := asOk i.svcCreate } = CreateVirtualCluster i ∧
    (∀ t, SOp.updateObject t ∉ (createPKISecrets rsaOk create).1 ∧
      SOp.updateObject t ∉ (deployComponent name svcKind stsC svcC waitOk).1) ∧
    ((∀ n ∈ secretNames, create n ≠ CreateResult.otherErr) → rsaOk = true →
      createPKISecrets rsaOk create = (secretNames.map SOp.createSecret, true)) ∧
    (∀ pre n post, secretNames = pre ++ n :: post →
      (∀ m ∈ pre, create m ≠ CreateResult.otherErr) → create n = CreateResult.otherErr →
      rsaOk = true →
      createPKISecrets rsaOk create = ((pre ++ [n]).map SOp.createSecret, false)) ∧
    ((name = "etcd" ∨ name = "apiserver" ∨ name = "controller-manager") →
      stsC = CreateResult.otherErr →
      deployComponent name svcKind stsC svcC waitOk = ([SOp.createWorkload name], false)) := by
  refine ⟨?_, ?_, ?_, ?_, ?_, ?_, ?_⟩
  · cases rsaOk with
    | false => rfl
    | true => exact createSecretsLoop_asOk create secretNames
  · cases stsC <;> cases svcC <;> rfl
  · rcases i with ⟨a, b, o, sc, p, e, s, m⟩
    cases sc <;> rfl
  · intro t
    constructor
    · cases rsaOk with
      | false => simp [createPKISecrets]
      | true => exact createSecretsLoop_no_update create secretNames t
    · unfold deployComponent
      cases stsC with
      | otherErr =>
        split
        · simp
        · simp
      | ok =>
        split
        · simp
        · dsimp only
          split
          · cases svcC <;> simp
          · simp
      | alreadyExists =>
        split
        · simp
        · dsimp only
          split
          · cases svcC <;> simp
          · simp
  · intro h hr
    subst hr
    exact createSecretsLoop_all_ok create secretNames h
  · intro pre n post heq hpre hn hr
    subst hr
    rw [show createPKISecrets true create = createSecretsLoop create secretNames from rfl, heq]
    exact createSecretsLoop_abort create pre n post hpre hn
  · intro hv hsts
    subst hsts
    have hcond : ¬(name ≠ "etcd" ∧ name ≠ "apiserver" ∧ name ≠ "controller-manager") := by
      rcases hv with h | h | h <;> subst h <;> simp
    unfold deployComponent
    rw [if_neg hcond]

/-- C9 witness: AlreadyExists on every secret create still issues all seven
creates and succeeds, and a hard error on the third create stops the loop
right after it. -/
theorem C9_create_or_skip_witness :
    createPKISecrets true (fun _ => CreateResult.alreadyExists) =
      (secretNames.map SOp.createSecret, true) ∧
    createPKISecrets true
        (fun n => if n = ETCDCASecretName then CreateResult.otherErr else CreateResult.ok) =
      ([SOp.createSecret RootCASecretName, SOp.createSecret APIServerCASecretName,
        SOp.createSecret ETCDCASecretName], false) :=
  ⟨((C9_create_or_skip true (fun _ => CreateResult.alreadyExists) "etcd" none
      CreateResult.ok CreateResult.ok true
      ⟨true, true, none, CreateResult.ok, true, true, true, true⟩).2.2.2.2.1
      (by decide) rfl),
   ((C9_create_or_skip true
      (fun n => if n = ETCDCASecretName then CreateResult.otherErr else CreateResult.ok)
      "etcd" none CreateResult.ok CreateResult.ok true
      ⟨true, true, none, CreateResult.ok, true, true, true, true⟩).2.2.2.2.2.1
      [RootCASecretName, APIServerCASecretName] ETCDCASecretName
      [FrontProxyCASecretName, ControllerManagerSecretName, AdminSecretName,
        ServiceAccountSecretName]
      (by decide) (by decide) (by decide) rfl).trans (by decide)⟩
